import Mathlib

/-!
Shallow embedding of `simulate_data.py` (fub-bems): a building-energy
simulation engine.  Machine reals are modelled as rationals; the ambient
`random` module is modelled as an explicit stream of rational draws threaded
through every stochastic function; the module-level mutable globals
`OFFLINE_ROOMS` / `LAST_OFFLINE_UPDATE` are modelled as an explicit
`OccState` value threaded through the occupancy functions; Python `dict[key]`
lookup (which raises `KeyError` on a missing key) is modelled with
`Except String`, while `dict.get(key)` is modelled with `Option`.
Time is modelled as rational seconds.
-/

namespace BEMS

/-- Per-room equipment counts (`equipment` dict in `room_config.json`). -/
structure Equipment where
  ac : ℕ
  fan : ℕ
  light : ℕ
  projector : ℕ
  pc : ℕ
deriving DecidableEq

/-- Per-room per-equipment base wattages (`wattage` dict). -/
structure Wattage where
  ac : ℚ
  fan : ℚ
  light : ℚ
  projector : ℚ
  pc : ℚ
deriving DecidableEq

/-- One entry of `ROOM_CONFIG`: the room's equipment counts and wattages. -/
structure RoomConfig where
  equipment : Equipment
  wattage : Wattage
deriving DecidableEq

/-- `ROOM_CONFIG`: association list from room identifier to its config,
in catalog (insertion) order, mirroring the JSON object loaded at start. -/
abbrev Catalog := List (String × RoomConfig)

/-- One entry of `SCHEDULES` (only the fields the core reads). -/
structure ScheduleEntry where
  course_code : Option String
  course_name : Option String
deriving DecidableEq

/-- `SCHEDULES`: association list from room identifier to schedule entry. -/
abbrev Schedules := List (String × ScheduleEntry)

/-- `ROOM_CONFIG[room]` via `.get`-style lookup: `some` config or `none`. -/
def lookupRoom (cat : Catalog) (room : String) : Option RoomConfig :=
  (cat.find? (fun p => p.1 == room)).map Prod.snd

/-- `SCHEDULES.get(room)`. -/
def lookupSchedule (sched : Schedules) (room : String) : Option ScheduleEntry :=
  (sched.find? (fun p => p.1 == room)).map Prod.snd

/-- The ambient `random` module: an infinite stream of rational draws
(each draw stands for one `random.random()` outcome) plus a cursor. -/
structure Rand where
  stream : ℕ → ℚ
  pos : ℕ

/-- Take the next raw draw from the stream. -/
def Rand.next (r : Rand) : ℚ × Rand :=
  (r.stream r.pos, ⟨r.stream, r.pos + 1⟩)

/-- `random.uniform(a, b)`: `a + (b - a) * random.random()`. -/
def randomUniform (a b : ℚ) (r : Rand) : ℚ × Rand :=
  let u := r.next
  (a + (b - a) * u.1, u.2)

/-- `random.randint(5, 6)`: one draw decides between 5 and 6. -/
def randint56 (r : Rand) : ℕ × Rand :=
  let u := r.next
  (if u.1 < 1/2 then 5 else 6, u.2)

/-- The in-range index picked by one without-replacement draw step of the
`random.sample` model below. -/
def sampleIdx (pop : List String) (r : Rand) : ℕ :=
  min (Int.toNat ⌊r.next.1 * (pop.length : ℚ)⌋) (pop.length - 1)

/-- `random.sample(population, k)`: `k` distinct elements drawn without
replacement, modelled by repeatedly removing a drawn index.  Python raises
`ValueError` when `k` exceeds the population size; this model instead stops
early, and is only relied on under the configuration precondition that the
catalog has at least `k` rooms. -/
def sample : ℕ → List String → Rand → List String × Rand
  | 0, _, r => ([], r)
  | k + 1, pop, r =>
    if pop.isEmpty then ([], r)
    else
      (pop.getD (sampleIdx pop r) default ::
         (sample k (pop.eraseIdx (sampleIdx pop r)) r.next.2).1,
       (sample k (pop.eraseIdx (sampleIdx pop r)) r.next.2).2)

/-- Python's `round(x, 2)` on our rational model: round `x * 100` to the
nearest integer, ties to even (banker's rounding), then divide by 100. -/
def roundHalfEven (q : ℚ) : ℤ :=
  let f := ⌊q⌋
  let frac := q - (f : ℚ)
  if frac < 1/2 then f
  else if 1/2 < frac then f + 1
  else if f % 2 = 0 then f else f + 1

/-- `round(q, 2)`. -/
def round2 (q : ℚ) : ℚ := ((roundHalfEven (q * 100) : ℤ) : ℚ) / 100

/-- `timedelta(minutes = m)` in seconds. -/
def minutes (m : ℚ) : ℚ := 60 * m

/-- The module globals `OFFLINE_ROOMS` and `LAST_OFFLINE_UPDATE`. -/
structure OccState where
  offline : List String
  lastUpdate : Option ℚ
deriving DecidableEq

/-- Initial module state: `OFFLINE_ROOMS = []`, `LAST_OFFLINE_UPDATE = None`. -/
def initialState : OccState := ⟨[], none⟩

/-- The guard of `update_offline_rooms`:
`LAST_OFFLINE_UPDATE is None or (current_time - LAST_OFFLINE_UPDATE).total_seconds() > 600`. -/
def refreshDue (now : ℚ) : Option ℚ → Bool
  | none => true
  | some t => decide (now - t > 600)

/-- `update_offline_rooms()`: when due, draw `k = randint(5, 6)` and set
`OFFLINE_ROOMS = random.sample(list(ROOM_CONFIG.keys()), k)`,
`LAST_OFFLINE_UPDATE = current_time`; otherwise leave the state unchanged.
(The `print` logging statement has no modelled effect.) -/
def update_offline_rooms (cat : Catalog) (now : ℚ) (s : OccState) (r : Rand) :
    OccState × Rand :=
  if refreshDue now s.lastUpdate then
    let k := randint56 r
    let drawn := sample k.1 (cat.map Prod.fst) k.2
    (⟨drawn.1, some now⟩, drawn.2)
  else (s, r)

/-- `is_room_active(room_id)`: refresh if due, then report
`room_id not in OFFLINE_ROOMS`.  Returns the flag plus the updated state. -/
def is_room_active (cat : Catalog) (room : String) (now : ℚ) (s : OccState)
    (r : Rand) : Bool × OccState × Rand :=
  let su := update_offline_rooms cat now s r
  (!(decide (room ∈ su.1.offline)), su.1, su.2)

/-- The per-kind fluctuation fraction chosen by `calculate_equipment_power`. -/
def fluctuationOf (equipment_type : String) : ℚ :=
  if equipment_type = "ac" then 15/100
  else if equipment_type = "fan" then 8/100
  else if equipment_type = "light" then 5/100
  else 10/100

/-- `calculate_equipment_power(equipment_type, base_wattage, count)`:
`power + power * fluctuation * uniform(-1, 1)`. -/
def calculate_equipment_power (equipment_type : String) (base_wattage : ℚ)
    (count : ℕ) (r : Rand) : ℚ × Rand :=
  let power := base_wattage * (count : ℚ)
  let v := randomUniform (-1) 1 r
  (power + power * fluctuationOf equipment_type * v.1, v.2)

/-- `calculate_room_power(room_id, is_active)`.  `ROOM_CONFIG[room_id]`
raises `KeyError` on an unknown room, modelled as `Except.error`.
Inactive: `max(10, pc standby + one light at 30% + uniform(-20, 20))`.
Active: `max(100, sum of the five equipment draws + uniform(-20, 20))`. -/
def calculate_room_power (cat : Catalog) (room : String) (is_active : Bool)
    (r : Rand) : Except String ℚ × Rand :=
  match lookupRoom cat room with
  | none => (.error "KeyError", r)
  | some config =>
    if !is_active then
      let standby_power := config.wattage.pc * (config.equipment.pc : ℚ) * (5/100)
        + config.wattage.light * 1 * (3/10)
      let noise := randomUniform (-20) 20 r
      (.ok (max 10 (standby_power + noise.1)), noise.2)
    else
      let pAc := calculate_equipment_power "ac" config.wattage.ac config.equipment.ac r
      let pFan := calculate_equipment_power "fan" config.wattage.fan config.equipment.fan pAc.2
      let pLight := calculate_equipment_power "light" config.wattage.light config.equipment.light pFan.2
      let pProj := calculate_equipment_power "projector" config.wattage.projector config.equipment.projector pLight.2
      let pPc := calculate_equipment_power "pc" config.wattage.pc config.equipment.pc pProj.2
      let noise := randomUniform (-20) 20 pPc.2
      (.ok (max 100 (pAc.1 + pFan.1 + pLight.1 + pProj.1 + pPc.1 + noise.1)), noise.2)

/-- The dict returned by `get_room_data` (timestamps as rational seconds). -/
structure RoomReading where
  room_id : String
  power : ℚ
  current : ℚ
  voltage : ℚ
  is_active : Bool
  status : String
  course_code : Option String
  course_name : Option String
  timestamp : ℚ
deriving DecidableEq

/-- `get_room_data(room_id, current_time)`: occupancy check (which may
refresh the offline set), room power, voltage `220 + uniform(-5, 5)`,
current `P / V`, schedule lookup; power/current/voltage rounded to 2
decimals.  A `KeyError` from `calculate_room_power` propagates. -/
def get_room_data (cat : Catalog) (sched : Schedules) (room : String)
    (now : ℚ) (s : OccState) (r : Rand) :
    Except String RoomReading × OccState × Rand :=
  let ia := is_room_active cat room now s r
  let cp := calculate_room_power cat room ia.1 ia.2.2
  match cp.1 with
  | .error e => (.error e, ia.2.1, cp.2)
  | .ok power =>
    let dv := randomUniform (-5) 5 cp.2
    let voltage : ℚ := 220 + dv.1
    let current := power / voltage
    let entry := lookupSchedule sched room
    (.ok { room_id := room
           power := round2 power
           current := round2 current
           voltage := round2 voltage
           is_active := ia.1
           status := if ia.1 then "ONLINE" else "OFFLINE"
           course_code := entry.bind ScheduleEntry.course_code
           course_name := entry.bind ScheduleEntry.course_name
           timestamp := now }, ia.2.1, dv.2)

/-- The dict returned by `get_building_summary`. -/
structure BuildingSummary where
  rooms : List RoomReading
  total_power : ℚ
  active_rooms : ℕ
  total_rooms : ℕ
  timestamp : ℚ
deriving DecidableEq

/-- The `for room_id in ROOM_CONFIG.keys()` loop of `get_building_summary`,
threading the occupancy state and randomness through the successive
`get_room_data` calls and collecting the readings in order. -/
def summaryLoop (cat : Catalog) (sched : Schedules) (now : ℚ) :
    List String → OccState → Rand → Except String (List RoomReading) × OccState × Rand
  | [], s, r => (.ok [], s, r)
  | room :: rest, s, r =>
    match get_room_data cat sched room now s r with
    | (.error e, s1, r1) => (.error e, s1, r1)
    | (.ok rd, s1, r1) =>
      match summaryLoop cat sched now rest s1 r1 with
      | (.error e, s2, r2) => (.error e, s2, r2)
      | (.ok rds, s2, r2) => (.ok (rd :: rds), s2, r2)

/-- `get_building_summary(current_time)`: one `get_room_data` per catalog
room in catalog order; `total_power` is the rounded sum of the (rounded)
per-room powers; `active_rooms` counts readings with `is_active`;
`total_rooms = len(ROOM_CONFIG)`. -/
def get_building_summary (cat : Catalog) (sched : Schedules) (now : ℚ)
    (s : OccState) (r : Rand) :
    Except String BuildingSummary × OccState × Rand :=
  match summaryLoop cat sched now (cat.map Prod.fst) s r with
  | (.error e, s1, r1) => (.error e, s1, r1)
  | (.ok rds, s1, r1) =>
    (.ok { rooms := rds
           total_power := round2 (rds.map RoomReading.power).sum
           active_rooms := rds.countP RoomReading.is_active
           total_rooms := cat.length
           timestamp := now }, s1, r1)

/-- One point of `generate_historical_data`'s result list. -/
structure HistPoint where
  timestamp : ℚ
  power : ℚ
  current : ℚ
  voltage : ℚ
  is_active : Bool
deriving DecidableEq

/-- The point-generating loop of `generate_historical_data`, indexed by the
number of points still to generate: with `k + 1` points remaining the next
point's timestamp is `now - timedelta(minutes = 5 * (k + 1))`, its activity
flag is `random.random() < 0.85`, and power/voltage/current are computed as
in `get_room_data`.  A `KeyError` from `calculate_room_power` propagates. -/
def histLoop (cat : Catalog) (room : String) (now : ℚ) :
    ℕ → Rand → Except String (List HistPoint) × Rand
  | 0, r => (.ok [], r)
  | k + 1, r =>
    let u := r.next
    let act := decide (u.1 < 85/100)
    let cp := calculate_room_power cat room act u.2
    match cp.1 with
    | .error e => (.error e, cp.2)
    | .ok power =>
      let dv := randomUniform (-5) 5 cp.2
      let voltage : ℚ := 220 + dv.1
      let current := power / voltage
      match histLoop cat room now k dv.2 with
      | (.error e, r2) => (.error e, r2)
      | (.ok rest, r2) =>
        (.ok ({ timestamp := now - minutes (5 * ((k : ℚ) + 1))
                power := round2 power
                current := round2 current
                voltage := round2 voltage
                is_active := act } :: rest), r2)

/-- `generate_historical_data(room_id, hours)`: `total_points =
(hours * 60) // 5` (Python floor division) points at 5-minute spacing
counting back from `now`, oldest first.  The function never touches the
occupancy globals, so the `OccState` argument is returned unchanged,
mirroring that its body reads neither `OFFLINE_ROOMS` nor
`LAST_OFFLINE_UPDATE`. -/
def generate_historical_data (cat : Catalog) (room : String) (hours : ℤ)
    (now : ℚ) (s : OccState) (r : Rand) :
    Except String (List HistPoint) × OccState × Rand :=
  let total := ((hours * 60).fdiv 5).toNat
  let res := histLoop cat room now total r
  (res.1, s, res.2)

/-- `get_room_config(room_id)`: `ROOM_CONFIG.get(room_id)` — absent, not
raising, on an unknown room. -/
def get_room_config (cat : Catalog) (room : String) : Option RoomConfig :=
  lookupRoom cat room

/-- `get_room_schedule(room_id)`: `SCHEDULES.get(room_id)`. -/
def get_room_schedule (sched : Schedules) (room : String) : Option ScheduleEntry :=
  lookupSchedule sched room

/-- `calculate_daily_energy(room_id)`: full-power sum of all equipment at
rated wattage, 8 active hours plus 16 standby hours at 5% of that sum,
divided by 1000, rounded to 2 decimals.  `ROOM_CONFIG[room_id]` raises
`KeyError` on an unknown room. -/
def calculate_daily_energy (cat : Catalog) (room : String) : Except String ℚ :=
  match lookupRoom cat room with
  | none => .error "KeyError"
  | some config =>
    let active_power : ℚ :=
      config.wattage.ac * (config.equipment.ac : ℚ)
      + config.wattage.fan * (config.equipment.fan : ℚ)
      + config.wattage.light * (config.equipment.light : ℚ)
      + config.wattage.projector * (config.equipment.projector : ℚ)
      + config.wattage.pc * (config.equipment.pc : ℚ)
    let active_hours : ℚ := 8
    let standby_hours : ℚ := 16
    let standby_power := active_power * (5/100)
    .ok (round2 ((active_power * active_hours + standby_power * standby_hours) / 1000))

/-- `calculate_co2_saved(kwh)`: `round(kwh * 0.71, 2)`. -/
def calculate_co2_saved (kwh : ℚ) : ℚ :=
  round2 (kwh * (71/100))

/-- Spec-side definition (from the spec's words, for comparison with the
code): "full-power sum of all equipment at rated wattage". -/
def fullPowerSum (config : RoomConfig) : ℚ :=
  config.wattage.ac * (config.equipment.ac : ℚ)
  + config.wattage.fan * (config.equipment.fan : ℚ)
  + config.wattage.light * (config.equipment.light : ℚ)
  + config.wattage.projector * (config.equipment.projector : ℚ)
  + config.wattage.pc * (config.equipment.pc : ℚ)

/-- The spec's scenario config for room "R1":
equipment `{ac:1, fan:2, light:4, projector:1, pc:1}` and wattage
`{ac:1500, fan:60, light:40, projector:150, pc:200}`. -/
def exampleConfig : RoomConfig :=
  { equipment := { ac := 1, fan := 2, light := 4, projector := 1, pc := 1 }
    wattage := { ac := 1500, fan := 60, light := 40, projector := 150, pc := 200 } }

/-- The spec's scenario catalog: exactly one room "R1". -/
def exampleCatalog : Catalog := [("R1", exampleConfig)]

/-- A six-room catalog (all rooms sharing the scenario config), used to
instantiate theorems whose hypotheses require at least six rooms. -/
def catalogSix : Catalog :=
  [("R1", exampleConfig), ("R2", exampleConfig), ("R3", exampleConfig),
   ("R4", exampleConfig), ("R5", exampleConfig), ("R6", exampleConfig)]

/-- A concrete randomness stream (all draws `1/2`) for witnesses. -/
def randHalf : Rand := ⟨fun _ => 1/2, 0⟩

/-- The offline set is well formed for a catalog: no duplicates, and every
member is a catalog key. -/
def WFState (cat : Catalog) (s : OccState) : Prop :=
  s.offline.Nodup ∧ ∀ x ∈ s.offline, x ∈ cat.map Prod.fst

theorem sampleIdx_lt {pop : List String} (h : pop ≠ []) (r : Rand) :
    sampleIdx pop r < pop.length := by
  have h1 : 1 ≤ pop.length := List.length_pos.mpr h
  have h2 : sampleIdx pop r ≤ pop.length - 1 := min_le_right _ _
  omega

theorem sample_length (k : ℕ) : ∀ (pop : List String) (r : Rand),
    (sample k pop r).1.length = min k pop.length := by
  induction k with
  | zero => intro pop r; simp [sample]
  | succ k ih =>
    intro pop r
    by_cases hp : pop.isEmpty
    · rw [List.isEmpty_iff] at hp
      simp [sample, hp]
    · rw [List.isEmpty_iff] at hp
      have hi := sampleIdx_lt hp r
      simp only [sample, List.isEmpty_iff, if_neg hp, List.length_cons, ih,
        List.length_eraseIdx, if_pos hi]
      have h1 : 1 ≤ pop.length := List.length_pos.mpr hp
      omega

theorem sample_subset (k : ℕ) : ∀ (pop : List String) (r : Rand),
    ∀ x ∈ (sample k pop r).1, x ∈ pop := by
  induction k with
  | zero => intro pop r x hx; simp [sample] at hx
  | succ k ih =>
    intro pop r x hx
    by_cases hp : pop.isEmpty
    · simp [sample, hp] at hx
    · rw [List.isEmpty_iff] at hp
      have hi := sampleIdx_lt hp r
      simp only [sample, List.isEmpty_iff, if_neg hp, List.mem_cons] at hx
      rcases hx with hx | hx
      · rw [hx, List.getD_eq_getElem pop default hi]
        exact List.getElem_mem hi
      · exact (List.eraseIdx_sublist pop (sampleIdx pop r)).subset (ih _ _ x hx)

theorem sample_nodup (k : ℕ) : ∀ (pop : List String) (r : Rand),
    pop.Nodup → (sample k pop r).1.Nodup := by
  induction k with
  | zero => intro pop r _; simp [sample]
  | succ k ih =>
    intro pop r hnd
    by_cases hp : pop.isEmpty
    · simp [sample, hp]
    · rw [List.isEmpty_iff] at hp
      have hi := sampleIdx_lt hp r
      simp only [sample, List.isEmpty_iff, if_neg hp, List.nodup_cons]
      refine ⟨?_, ih _ _ ((List.eraseIdx_sublist pop (sampleIdx pop r)).nodup hnd)⟩
      intro hmem
      have hmem2 : pop.getD (sampleIdx pop r) default ∈
          pop.eraseIdx (sampleIdx pop r) :=
        sample_subset k _ _ _ hmem
      rw [List.getD_eq_getElem pop default hi] at hmem2
      obtain ⟨j, hj, hne, heq⟩ := List.mem_eraseIdx_iff_getElem.mp hmem2
      exact hne (hnd.getElem_inj_iff.mp heq)

theorem lookupRoom_isSome_of_mem {cat : Catalog} {room : String}
    (h : room ∈ cat.map Prod.fst) : (lookupRoom cat room).isSome := by
  obtain ⟨p, hp, hfst⟩ := List.mem_map.mp h
  simp only [lookupRoom, Option.isSome_map']
  rw [List.find?_isSome]
  exact ⟨p, hp, by simp [hfst]⟩

theorem lookupRoom_eq_none_of_not_mem {cat : Catalog} {room : String}
    (h : room ∉ cat.map Prod.fst) : lookupRoom cat room = none := by
  simp only [lookupRoom, Option.map_eq_none']
  rw [List.find?_eq_none]
  intro p hp hbeq
  rw [beq_iff_eq] at hbeq
  exact h (List.mem_map.mpr ⟨p, hp, hbeq⟩)

theorem calculate_room_power_ok {cat : Catalog} {room : String}
    {config : RoomConfig} (b : Bool) (r : Rand)
    (h : lookupRoom cat room = some config) :
    ∃ p r2, calculate_room_power cat room b r = (.ok p, r2) ∧
      (10 : ℚ) ≤ p ∧ (b = true → (100 : ℚ) ≤ p) := by
  cases b with
  | false =>
    simp only [calculate_room_power, h, Bool.not_false, if_true]
    exact ⟨_, _, rfl, le_max_left _ _, by simp⟩
  | true =>
    simp only [calculate_room_power, h, Bool.not_true, Bool.false_eq_true,
      if_false]
    refine ⟨_, _, rfl, ?_, fun _ => le_max_left _ _⟩
    calc (10 : ℚ) ≤ 100 := by norm_num
      _ ≤ _ := le_max_left _ _

theorem update_not_due {cat : Catalog} {now : ℚ} {s : OccState} (r : Rand)
    (h : refreshDue now s.lastUpdate = false) :
    update_offline_rooms cat now s r = (s, r) := by
  simp [update_offline_rooms, h]

theorem update_due {cat : Catalog} {now : ℚ} {s : OccState} (r : Rand)
    (h : refreshDue now s.lastUpdate = true) :
    update_offline_rooms cat now s r =
      (⟨(sample (randint56 r).1 (cat.map Prod.fst) (randint56 r).2).1, some now⟩,
       (sample (randint56 r).1 (cat.map Prod.fst) (randint56 r).2).2) := by
  simp [update_offline_rooms, h]

theorem refreshDue_update (cat : Catalog) (now : ℚ) (s : OccState) (r : Rand) :
    refreshDue now ((update_offline_rooms cat now s r).1).lastUpdate = false := by
  by_cases h : refreshDue now s.lastUpdate
  · rw [update_due r h]
    simp only [refreshDue]
    rw [decide_eq_false_iff_not]
    norm_num
  · rw [update_not_due r (Bool.not_eq_true _ ▸ h)]
    exact Bool.not_eq_true _ ▸ h

theorem update_wf {cat : Catalog} {now : ℚ} {s : OccState} (r : Rand)
    (hk : (cat.map Prod.fst).Nodup) (hs : WFState cat s) :
    WFState cat (update_offline_rooms cat now s r).1 := by
  by_cases h : refreshDue now s.lastUpdate
  · rw [update_due r h]
    exact ⟨sample_nodup _ _ _ hk, fun x hx => sample_subset _ _ _ x hx⟩
  · rw [update_not_due r (Bool.not_eq_true _ ▸ h)]
    exact hs

theorem count_active_add_offline {keys off : List String}
    (hk : keys.Nodup) (ho : off.Nodup) (hsub : ∀ x ∈ off, x ∈ keys) :
    keys.countP (fun x => !(decide (x ∈ off))) + off.length = keys.length := by
  have hperm : List.Perm (keys.filter (fun x => decide (x ∈ off))) off := by
    rw [List.perm_ext_iff_of_nodup (hk.filter _) ho]
    intro a
    simp only [List.mem_filter, decide_eq_true_eq]
    exact ⟨fun ha => ha.2, fun ha => ⟨hsub a ha, ha⟩⟩
  have h1 : keys.countP (fun x => decide (x ∈ off)) = off.length := by
    rw [List.countP_eq_length_filter]
    exact hperm.length_eq
  have h2 := List.length_eq_countP_add_countP (fun x => decide (x ∈ off)) keys
  have h3 : keys.countP (fun x => !(decide (x ∈ off))) =
      keys.countP (fun a => decide (¬(decide (a ∈ off) = true))) := by
    apply List.countP_congr
    intro a _
    simp
  omega

theorem get_room_data_ok {cat : Catalog} (sched : Schedules) {room : String}
    (now : ℚ) (s : OccState) (r : Rand) (hmem : room ∈ cat.map Prod.fst) :
    ∃ rd r2, get_room_data cat sched room now s r =
        (.ok rd, (update_offline_rooms cat now s r).1, r2) ∧
      rd.room_id = room ∧
      rd.is_active =
        !(decide (room ∈ ((update_offline_rooms cat now s r).1).offline)) := by
  obtain ⟨config, hconf⟩ :=
    Option.isSome_iff_exists.mp (lookupRoom_isSome_of_mem hmem)
  obtain ⟨p, r2, hcp, -, -⟩ :=
    calculate_room_power_ok
      (!(decide (room ∈ ((update_offline_rooms cat now s r).1).offline)))
      (update_offline_rooms cat now s r).2 hconf
  simp only [get_room_data, is_room_active, hcp]
  exact ⟨_, _, rfl, rfl, rfl⟩

theorem summaryLoop_stable {cat : Catalog} (sched : Schedules) {now : ℚ}
    {s : OccState} (hstable : refreshDue now s.lastUpdate = false) :
    ∀ (rooms : List String) (r : Rand), (∀ x ∈ rooms, x ∈ cat.map Prod.fst) →
    ∃ rds r2, summaryLoop cat sched now rooms s r = (.ok rds, s, r2) ∧
      rds.map RoomReading.room_id = rooms ∧
      rds.countP RoomReading.is_active =
        rooms.countP (fun x => !(decide (x ∈ s.offline))) := by
  intro rooms
  induction rooms with
  | nil => exact fun r _ => ⟨[], r, rfl, rfl, rfl⟩
  | cons room rest ih =>
    intro r hmem
    obtain ⟨rd, r2, hrd, hid, hact⟩ :=
      get_room_data_ok sched now s r (hmem room (by simp))
    simp only [update_not_due r hstable] at hrd hact
    obtain ⟨rds, r3, hloop, hmap, hcount⟩ :=
      ih r2 (fun x hx => hmem x (by simp [hx]))
    refine ⟨rd :: rds, r3, ?_, ?_, ?_⟩
    · simp only [summaryLoop, hrd, hloop]
    · simp [hmap, hid]
    · simp [List.countP_cons, hcount, hact, hid]

theorem histLoop_ok {cat : Catalog} {room : String} {config : RoomConfig}
    (h : lookupRoom cat room = some config) (now : ℚ) :
    ∀ (k : ℕ) (r : Rand), ∃ l r2, histLoop cat room now k r = (.ok l, r2) ∧
      l.length = k ∧
      ∀ i (hi : i < l.length),
        l[i].timestamp = now - minutes (5 * ((k : ℚ) - (i : ℚ))) := by
  intro k
  induction k with
  | zero =>
    intro r
    exact ⟨[], r, rfl, rfl, fun i hi => absurd hi (by simp)⟩
  | succ k ih =>
    intro r
    obtain ⟨p, r2, hcp, -, -⟩ :=
      calculate_room_power_ok (decide (r.next.1 < 85/100)) r.next.2 h
    obtain ⟨l, r3, hloop, hlen, hts⟩ := ih (randomUniform (-5) 5 r2).2
    simp only [histLoop, hcp, hloop]
    refine ⟨_, _, rfl, by simp [hlen], ?_⟩
    intro i hi
    cases i with
    | zero =>
      simp only [List.getElem_cons_zero]
      simp only [minutes]
      push_cast
      ring
    | succ i =>
      have hi2 : i < l.length := by
        simp only [List.length_cons] at hi
        omega
      rw [List.getElem_cons_succ, hts i hi2]
      simp only [minutes]
      push_cast
      ring

theorem lookupSchedule_eq_none_of_not_mem {sched : Schedules} {room : String}
    (h : room ∉ sched.map Prod.fst) : lookupSchedule sched room = none := by
  simp only [lookupSchedule, Option.map_eq_none']
  rw [List.find?_eq_none]
  intro p hp hbeq
  rw [beq_iff_eq] at hbeq
  exact h (List.mem_map.mpr ⟨p, hp, hbeq⟩)

/-- Claim C1: for every room profile (any catalog entry for the room) and
every outcome of the random draws, `calculate_room_power` returns at least
10 W when `is_active = false` and at least 100 W when `is_active = true`. -/
theorem calculate_room_power_min (cat : Catalog) (room : String) (b : Bool)
    (r : Rand) (h : (lookupRoom cat room).isSome) :
    ∃ p r2, calculate_room_power cat room b r = (.ok p, r2) ∧
      (10 : ℚ) ≤ p ∧ (b = true → (100 : ℚ) ≤ p) := by
  obtain ⟨config, hconf⟩ := Option.isSome_iff_exists.mp h
  exact calculate_room_power_ok b r hconf

/-- Witness for C1 at the spec's scenario room. -/
theorem calculate_room_power_min_witness :
    ∃ p r2, calculate_room_power exampleCatalog "R1" false randHalf =
        (.ok p, r2) ∧
      (10 : ℚ) ≤ p ∧ (false = true → (100 : ℚ) ≤ p) :=
  calculate_room_power_min exampleCatalog "R1" false randHalf (by rfl)

/-- Claim C2: after every refresh performed by `update_offline_rooms`
(refresh guard true, catalog keys distinct, at least 6 rooms), the offline
set has exactly 5 or 6 members, all of them catalog keys, with no
duplicates. -/
theorem update_offline_rooms_invariant (cat : Catalog) (now : ℚ)
    (s : OccState) (r : Rand) (hk : (cat.map Prod.fst).Nodup)
    (hlen : 6 ≤ cat.length) (hdue : refreshDue now s.lastUpdate = true) :
    ((update_offline_rooms cat now s r).1.offline.length = 5 ∨
      (update_offline_rooms cat now s r).1.offline.length = 6) ∧
    (update_offline_rooms cat now s r).1.offline.Nodup ∧
    ∀ x ∈ (update_offline_rooms cat now s r).1.offline,
      x ∈ cat.map Prod.fst := by
  simp only [update_due r hdue]
  refine ⟨?_, sample_nodup _ _ _ hk, fun x hx => sample_subset _ _ _ x hx⟩
  rw [sample_length]
  have hmaplen : (cat.map Prod.fst).length = cat.length := List.length_map _ _
  have hk56 : (randint56 r).1 = 5 ∨ (randint56 r).1 = 6 := by
    simp only [randint56]
    by_cases hu : r.next.1 < 1/2
    · left; rw [if_pos hu]
    · right; rw [if_neg hu]
  rcases hk56 with h5 | h6
  · left; rw [h5]; omega
  · right; rw [h6]; omega

/-- Witness for C2 on a six-room catalog from the initial state. -/
theorem update_offline_rooms_invariant_witness :
    ((update_offline_rooms catalogSix 0 initialState randHalf).1.offline.length = 5 ∨
      (update_offline_rooms catalogSix 0 initialState randHalf).1.offline.length = 6) ∧
    (update_offline_rooms catalogSix 0 initialState randHalf).1.offline.Nodup ∧
    ∀ x ∈ (update_offline_rooms catalogSix 0 initialState randHalf).1.offline,
      x ∈ catalogSix.map Prod.fst :=
  update_offline_rooms_invariant catalogSix 0 initialState randHalf
    (by decide) (by decide) (by rfl)

/-- Claim C3: the offline set is recomputed if and only if no refresh has
happened yet or more than 600 seconds elapsed since the last one; as a
consequence two `is_room_active` calls within 600 seconds of the last
refresh (hence with no intervening refresh) return the same boolean. -/
theorem occupancy_refresh_iff_stable (cat : Catalog) (room : String)
    (now t t1 t2 : ℚ) (s : OccState) (r r1 r2 : Rand) :
    ((s.lastUpdate = none ∨ ∃ tl, s.lastUpdate = some tl ∧ 600 < now - tl) →
       update_offline_rooms cat now s r =
         (⟨(sample (randint56 r).1 (cat.map Prod.fst) (randint56 r).2).1,
            some now⟩,
          (sample (randint56 r).1 (cat.map Prod.fst) (randint56 r).2).2)) ∧
    (∀ tl, s.lastUpdate = some tl → now - tl ≤ 600 →
       update_offline_rooms cat now s r = (s, r)) ∧
    (s.lastUpdate = some t → t1 - t ≤ 600 → t2 - t ≤ 600 →
       (is_room_active cat room t1 s r1).1 =
         (is_room_active cat room t2 s r2).1) := by
  refine ⟨?_, ?_, ?_⟩
  · intro hd
    apply update_due
    rcases hd with hnone | ⟨tl, htl, hgt⟩
    · simp [refreshDue, hnone]
    · simp [refreshDue, htl, hgt]
  · intro tl htl hle
    apply update_not_due
    simp only [htl, refreshDue]
    rw [decide_eq_false_iff_not]
    exact not_lt.mpr hle
  · intro ht h1 h2
    have e1 : update_offline_rooms cat t1 s r1 = (s, r1) := by
      apply update_not_due
      simp only [ht, refreshDue]
      rw [decide_eq_false_iff_not]
      exact not_lt.mpr h1
    have e2 : update_offline_rooms cat t2 s r2 = (s, r2) := by
      apply update_not_due
      simp only [ht, refreshDue]
      rw [decide_eq_false_iff_not]
      exact not_lt.mpr h2
    simp [is_room_active, e1, e2]

/-- Witness for C3: two queries 100 s and 500 s after a refresh at time 0
agree. -/
theorem occupancy_refresh_iff_stable_witness :
    (is_room_active catalogSix "R2" 100 ⟨["R2"], some 0⟩ randHalf).1 =
      (is_room_active catalogSix "R2" 500 ⟨["R2"], some 0⟩ randHalf).1 :=
  (occupancy_refresh_iff_stable catalogSix "R2" 0 0 100 500
      ⟨["R2"], some 0⟩ randHalf randHalf randHalf).2.2
    rfl (by norm_num) (by norm_num)

/-- Claim C5: `calculate_daily_energy` is deterministic — its value is a
fixed function of the catalog entry (no random draw is consumed): it equals
the full-power sum at rated wattage times 8 hours plus 5% of that sum times
16 hours, divided by 1000 and rounded to 2 decimals; on the spec's scenario
room it returns 18.74. -/
theorem calculate_daily_energy_spec (cat : Catalog) (room : String)
    (config : RoomConfig) (h : lookupRoom cat room = some config) :
    calculate_daily_energy cat room =
      .ok (round2 ((fullPowerSum config * 8
        + fullPowerSum config * (5/100) * 16) / 1000)) ∧
    calculate_daily_energy exampleCatalog "R1" = .ok (1874/100) := by
  constructor
  · simp [calculate_daily_energy, h, fullPowerSum]
  · norm_num [calculate_daily_energy, lookupRoom, exampleCatalog,
      exampleConfig, List.find?, fullPowerSum, round2, roundHalfEven]

/-- Witness for C5 at the spec's scenario catalog. -/
theorem calculate_daily_energy_spec_witness :
    (calculate_daily_energy exampleCatalog "R1" =
      .ok (round2 ((fullPowerSum exampleConfig * 8
        + fullPowerSum exampleConfig * (5/100) * 16) / 1000))) ∧
    calculate_daily_energy exampleCatalog "R1" = .ok (1874/100) :=
  calculate_daily_energy_spec exampleCatalog "R1" exampleConfig (by rfl)

/-- Claim C6 counterexample: `calculate_co2_saved(18.74)` evaluates to
13.31, not 13.3 as claimed (18.74 × 0.71 = 13.3054, which rounds up). -/
theorem calculate_co2_saved_counterexample :
    calculate_co2_saved (1874/100) = 1331/100 ∧
    calculate_co2_saved (1874/100) ≠ 133/10 := by
  constructor
  · norm_num [calculate_co2_saved, round2, roundHalfEven]
  · norm_num [calculate_co2_saved, round2, roundHalfEven]

/-- Claim C6 (amended): `calculate_co2_saved(kwh)` returns `kwh * 0.71`
rounded to 2 decimal places, and in particular
`calculate_co2_saved(18.74)` returns 13.31. -/
theorem calculate_co2_saved_spec (kwh : ℚ) :
    calculate_co2_saved kwh = round2 (kwh * (71/100)) ∧
    calculate_co2_saved (1874/100) = 1331/100 :=
  ⟨rfl, by norm_num [calculate_co2_saved, round2, roundHalfEven]⟩

/-- Claim C9: whenever the derived point count `(hours * 60) // 5` is zero
or negative, `generate_historical_data` returns an empty sequence. -/
theorem generate_historical_data_empty (cat : Catalog) (room : String)
    (hours : ℤ) (now : ℚ) (s : OccState) (r : Rand)
    (h : (hours * 60).fdiv 5 ≤ 0) :
    (generate_historical_data cat room hours now s r).1 = .ok [] := by
  simp only [generate_historical_data]
  rw [Int.toNat_of_nonpos h]
  rfl

/-- Witness for C9 at `hours = 0`. -/
theorem generate_historical_data_empty_witness :
    (generate_historical_data exampleCatalog "R1" 0 0 initialState
        randHalf).1 = .ok [] :=
  generate_historical_data_empty exampleCatalog "R1" 0 0 initialState
    randHalf (by decide)

/-- Claim C10: `generate_historical_data` is frame-disjoint from the
occupancy state: it returns the offline set and last-refresh timestamp
unchanged, and neither its points nor its randomness consumption depend on
that state (each point's activity flag is drawn independently). -/
theorem generate_historical_data_frame (cat : Catalog) (room : String)
    (hours : ℤ) (now : ℚ) (s s2 : OccState) (r : Rand) :
    (generate_historical_data cat room hours now s r).2.1 = s ∧
    (generate_historical_data cat room hours now s r).1 =
      (generate_historical_data cat room hours now s2 r).1 ∧
    (generate_historical_data cat room hours now s r).2.2 =
      (generate_historical_data cat room hours now s2 r).2.2 :=
  ⟨rfl, rfl, rfl⟩

/-- Claim C7: for every positive integer `hours` (and a catalog room — the
power computation would raise on an unknown one), `generate_historical_data`
returns exactly `(hours * 60) // 5` points in non-decreasing timestamp
order, consecutive points exactly 5 minutes apart, and the last point's
timestamp equal to the current time minus one 5-minute interval.  At
`hours = 24` this is 288 points (see the witness). -/
theorem generate_historical_data_spec (cat : Catalog) (room : String)
    (hours : ℤ) (now : ℚ) (s : OccState) (r : Rand)
    (hroom : (lookupRoom cat room).isSome) (hpos : 0 < hours) :
    ∃ l r2, generate_historical_data cat room hours now s r =
        (.ok l, s, r2) ∧
      l.length = ((hours * 60).fdiv 5).toNat ∧
      (∀ i (hi : i + 1 < l.length),
        l[i + 1].timestamp = l[i].timestamp + minutes 5) ∧
      (∀ pt, l.getLast? = some pt → pt.timestamp = now - minutes 5) ∧
      List.Pairwise (fun a b => a.timestamp ≤ b.timestamp) l := by
  obtain ⟨config, hconf⟩ := Option.isSome_iff_exists.mp hroom
  obtain ⟨l, r2, hloop, hlen, hts⟩ :=
    histLoop_ok hconf now ((hours * 60).fdiv 5).toNat r
  have hkpos : 1 ≤ ((hours * 60).fdiv 5).toNat := by
    have h2 : hours * 60 = 5 * (hours * 12) := by ring
    rw [h2, Int.mul_fdiv_cancel_left _ (by norm_num)]
    omega
  refine ⟨l, r2, ?_, hlen, ?_, ?_, ?_⟩
  · simp [generate_historical_data, hloop]
  · intro i hi
    have hi0 : i < l.length := by omega
    rw [hts (i + 1) hi, hts i hi0]
    simp only [minutes]
    push_cast
    ring
  · intro pt hlast
    rw [List.getLast?_eq_getElem?] at hlast
    have hl1 : l.length - 1 < l.length := by omega
    rw [List.getElem?_eq_getElem hl1] at hlast
    have hpt := Option.some.inj hlast
    have hc : ((l.length - 1 : ℕ) : ℚ) = (l.length : ℚ) - 1 :=
      Nat.cast_sub (hlen ▸ hkpos)
    rw [← hpt, hts (l.length - 1) hl1, hc, hlen]
    simp only [minutes]
    ring
  · rw [List.pairwise_iff_get]
    intro i j hij
    rw [List.get_eq_getElem, List.get_eq_getElem, hts i.1 i.2, hts j.1 j.2]
    have hij2 : (i.1 : ℚ) ≤ (j.1 : ℚ) := by
      have : i.1 < j.1 := hij
      exact_mod_cast Nat.le_of_lt this
    simp only [minutes]
    linarith

/-- Witness for C7 at `hours = 24` from the initial occupancy state. -/
theorem generate_historical_data_spec_witness :
    ∃ l r2, generate_historical_data exampleCatalog "R1" 24 0 initialState
        randHalf = (.ok l, initialState, r2) ∧
      l.length = (((24 : ℤ) * 60).fdiv 5).toNat ∧
      (∀ i (hi : i + 1 < l.length),
        l[i + 1].timestamp = l[i].timestamp + minutes 5) ∧
      (∀ pt, l.getLast? = some pt → pt.timestamp = 0 - minutes 5) ∧
      List.Pairwise (fun a b => a.timestamp ≤ b.timestamp) l :=
  generate_historical_data_spec exampleCatalog "R1" 24 0 initialState
    randHalf (by rfl) (by norm_num)

/-- Claim C8 counterexample: on a room identifier absent from the catalog,
the room-power, daily-energy and room-reading operations evaluate to a
raised `KeyError`, not to an absent result, refuting "never by raising". -/
theorem unknown_room_raises_counterexample :
    (calculate_room_power exampleCatalog "R99" true randHalf).1 =
      .error "KeyError" ∧
    calculate_daily_energy exampleCatalog "R99" = .error "KeyError" ∧
    (get_room_data exampleCatalog [] "R99" 0 ⟨[], some 0⟩ randHalf).1 =
      .error "KeyError" := by
  have hnone : lookupRoom exampleCatalog "R99" = none :=
    lookupRoom_eq_none_of_not_mem (by decide)
  refine ⟨?_, ?_, ?_⟩
  · simp [calculate_room_power, hnone]
  · simp [calculate_daily_energy, hnone]
  · simp [get_room_data, is_room_active, calculate_room_power, hnone]

/-- Claim C8 (amended): for a room identifier absent from the catalog and
schedule table, `get_room_config` and `get_room_schedule` signal the
unknown room by an absent result and never raise, while the room-reading,
room-power and daily-energy operations raise `KeyError` (from the
`ROOM_CONFIG[room_id]` lookup) instead of returning an absent result. -/
theorem unknown_room_behavior (cat : Catalog) (sched : Schedules)
    (room : String) (b : Bool) (now : ℚ) (s : OccState) (r r2 : Rand)
    (hc : room ∉ cat.map Prod.fst) (hs : room ∉ sched.map Prod.fst) :
    get_room_config cat room = none ∧
    get_room_schedule sched room = none ∧
    (calculate_room_power cat room b r).1 = .error "KeyError" ∧
    calculate_daily_energy cat room = .error "KeyError" ∧
    (get_room_data cat sched room now s r2).1 = .error "KeyError" := by
  have hnone := lookupRoom_eq_none_of_not_mem hc
  have hsched := lookupSchedule_eq_none_of_not_mem hs
  refine ⟨hnone, hsched, ?_, ?_, ?_⟩
  · simp [calculate_room_power, hnone]
  · simp [calculate_daily_energy, hnone]
  · simp [get_room_data, is_room_active, calculate_room_power, hnone]

/-- Witness for C8 (amended) at a concrete unknown room. -/
theorem unknown_room_behavior_witness :
    get_room_config exampleCatalog "R99" = none ∧
    get_room_schedule [] "R99" = none ∧
    (calculate_room_power exampleCatalog "R99" false randHalf).1 =
      .error "KeyError" ∧
    calculate_daily_energy exampleCatalog "R99" = .error "KeyError" ∧
    (get_room_data exampleCatalog [] "R99" 0 ⟨[], some 0⟩ randHalf).1 =
      .error "KeyError" :=
  unknown_room_behavior exampleCatalog [] "R99" false 0 ⟨[], some 0⟩
    randHalf randHalf (by decide) (by decide)

/-- Claim C4: with distinct catalog keys and a well-formed occupancy state,
`get_building_summary` returns one reading per catalog room in catalog
order, `total_rooms` equal to the catalog size, and `active_rooms` plus the
size of the (final) offline set equal to `total_rooms`. -/
theorem get_building_summary_invariants (cat : Catalog) (sched : Schedules)
    (now : ℚ) (s : OccState) (r : Rand) (hk : (cat.map Prod.fst).Nodup)
    (hwf : WFState cat s) :
    ∃ summ s2 r2, get_building_summary cat sched now s r =
        (.ok summ, s2, r2) ∧
      summ.rooms.map RoomReading.room_id = cat.map Prod.fst ∧
      summ.total_rooms = cat.length ∧
      summ.active_rooms + s2.offline.length = summ.total_rooms := by
  rcases hcase : cat.map Prod.fst with _ | ⟨room, rest⟩
  · have hcatnil : cat = [] := List.map_eq_nil_iff.mp hcase
    subst hcatnil
    have hoff : s.offline = [] :=
      List.eq_nil_iff_forall_not_mem.mpr (fun x hx => by simpa using hwf.2 x hx)
    refine ⟨_, s, r, rfl, rfl, rfl, ?_⟩
    simp [summaryLoop, hoff]
  · have hmem0 : room ∈ cat.map Prod.fst := by
      rw [hcase]; exact List.mem_cons_self _ _
    obtain ⟨rd, r2, hrd, hid, hact⟩ := get_room_data_ok sched now s r hmem0
    have hs1 : refreshDue now
        ((update_offline_rooms cat now s r).1).lastUpdate = false :=
      refreshDue_update cat now s r
    have hwf1 : WFState cat (update_offline_rooms cat now s r).1 :=
      update_wf r hk hwf
    obtain ⟨rds, r3, hloop, hmap, hcount⟩ :=
      summaryLoop_stable sched hs1 rest r2
        (fun x hx => by rw [hcase]; exact List.mem_cons_of_mem _ hx)
    have hfull : summaryLoop cat sched now (cat.map Prod.fst) s r =
        (.ok (rd :: rds), (update_offline_rooms cat now s r).1, r3) := by
      rw [hcase]
      simp only [summaryLoop, hrd, hloop]
    have hcnt := count_active_add_offline hk hwf1.1 hwf1.2
    have hmaplen : (cat.map Prod.fst).length = cat.length :=
      List.length_map _ _
    refine ⟨{ rooms := rd :: rds
              total_power := round2 ((rd :: rds).map RoomReading.power).sum
              active_rooms := (rd :: rds).countP RoomReading.is_active
              total_rooms := cat.length
              timestamp := now },
            (update_offline_rooms cat now s r).1, r3, ?_, ?_, rfl, ?_⟩
    · simp only [get_building_summary, hfull]
    · simp [hmap, hid, hcase]
    · have hcp : (rd :: rds).countP RoomReading.is_active =
          (cat.map Prod.fst).countP
            (fun x => !(decide (x ∈
              ((update_offline_rooms cat now s r).1).offline))) := by
        rw [hcase, List.countP_cons, List.countP_cons, hcount]
        congr 1
        rw [hact]
      simp only [hcp]
      rw [← hmaplen]
      exact hcnt

/-- Witness for C4 on a six-room catalog from the initial state. -/
theorem get_building_summary_invariants_witness :
    ∃ summ s2 r2, get_building_summary catalogSix [] 0 initialState
        randHalf = (.ok summ, s2, r2) ∧
      summ.rooms.map RoomReading.room_id = catalogSix.map Prod.fst ∧
      summ.total_rooms = catalogSix.length ∧
      summ.active_rooms + s2.offline.length = summ.total_rooms :=
  get_building_summary_invariants catalogSix [] 0 initialState randHalf
    (by decide) (by constructor <;> simp [initialState])

end BEMS
